import Mathlib

/-!
Verification of the headless_fabric wrapper (src/headless_fabric.py).

The module configures the Fabric remote-execution library for headless
(non-interactive) operation and wraps its `run`, `get` and `put`
primitives in error-normalizing guards.  We embed:

* the process-global Fabric environment object `env` as the record `Env`
  (the policy fields written by `HeadlessFabric.__init__` plus the
  per-call host context that Fabric's `execute` injects);
* `HeadlessFabric.__init__` as `headlessInit : InitArgs → Env → Env`;
* the underlying transport (Fabric's `run`, `get`, `put`, external to
  the repository, specified only at its interface boundary) as an
  oracle `Transport` mapping each invocation to a `TransportOutcome`:
  a completed round trip with a return code and captured output, an
  ordinary Python exception, or the `SystemExit` that Fabric raises in
  place of an interactive prompt when `abort_on_prompts` is set;
* the guards `_run_fabric_command` and `_transfer_file` as total
  functions from the transport outcome to a `PyResult` (normal return,
  raised Python exception value, or an uncaught `SystemExit` escaping
  to the process) together with the list of log records emitted;
* the public methods `execute`, `get_file` and `put_file`, with
  Fabric's `execute` fan-out modelled at its interface boundary as the
  per-host application of the guarded task plus the injection of the
  per-call host context into the global environment.

String formatting follows the Python `format` calls character for
character, so theorems about error messages speak about the exact
strings the code produces.
-/

/-- Log levels used by the module (`LOG.info` in the public methods,
`LOG.warning` in the guards). -/
inductive LogLevel where
  | info
  | warning
  deriving Repr, DecidableEq

/-- A record emitted to the logger: level and message. -/
structure LogRecord where
  level : LogLevel
  msg : String
  deriving Repr, DecidableEq

/-- The process-global Fabric environment object (`fabric.api.env`),
restricted to the fields this module reads or writes.  The first ten
fields are the session policy written by `HeadlessFabric.__init__`; the
last two are the per-call host context that Fabric's `execute` injects
for the duration of one call. -/
structure Env where
  connection_attempts : Int
  command_timeout : Option Int
  timeout : Int
  abort_on_prompts : Bool
  skip_bad_hosts : Bool
  parallel : Bool
  gateway : Option String
  use_ssh_config : Bool
  no_keys : Bool
  key_filename : Option String
  hosts : List String
  host : Option String
  deriving Repr, DecidableEq

/-- Fabric's own defaults for the modelled fields, the state of the
global environment before any `HeadlessFabric` is constructed. -/
def defaultEnv : Env where
  connection_attempts := 1
  command_timeout := none
  timeout := 10
  abort_on_prompts := false
  skip_bad_hosts := false
  parallel := false
  gateway := none
  use_ssh_config := false
  no_keys := false
  key_filename := none
  hosts := []
  host := none

/-- The session policy part of the environment: exactly the fields
`HeadlessFabric.__init__` writes. -/
structure Policy where
  connection_attempts : Int
  command_timeout : Option Int
  timeout : Int
  abort_on_prompts : Bool
  skip_bad_hosts : Bool
  parallel : Bool
  gateway : Option String
  use_ssh_config : Bool
  no_keys : Bool
  key_filename : Option String
  deriving Repr, DecidableEq

/-- Project the policy fields out of the environment. -/
def policyOf (e : Env) : Policy where
  connection_attempts := e.connection_attempts
  command_timeout := e.command_timeout
  timeout := e.timeout
  abort_on_prompts := e.abort_on_prompts
  skip_bad_hosts := e.skip_bad_hosts
  parallel := e.parallel
  gateway := e.gateway
  use_ssh_config := e.use_ssh_config
  no_keys := e.no_keys
  key_filename := e.key_filename

/-- The keyword arguments of `HeadlessFabric.__init__`, in source
order. -/
structure InitArgs where
  conn_attempts : Int
  cmd_timeout : Int
  net_timeout : Int
  key_file : Option String
  gateway : Option String
  deriving Repr, DecidableEq

/-- The default values of the `__init__` signature:
`conn_attempts=3, cmd_timeout=120, net_timeout=120, key_file=None,
gateway=None`. -/
def defaultInitArgs : InitArgs where
  conn_attempts := 3
  cmd_timeout := 120
  net_timeout := 120
  key_file := none
  gateway := none

/-- Python truthiness of an optional string (`if key_file:`): `None`
and the empty string are falsy. -/
def pyTruthy : Option String → Bool
  | none => false
  | some s => !(s == "")

/-- `HeadlessFabric.__init__`: writes the policy into the global Fabric
environment.  All fields except the key-file pair are assigned
unconditionally; `no_keys` and `key_filename` are assigned only when
`key_file` is truthy (`if key_file:`), otherwise they keep whatever
value the environment already had. -/
def headlessInit (a : InitArgs) (env : Env) : Env :=
  let env1 : Env :=
    { env with
      connection_attempts := a.conn_attempts
      command_timeout := some a.cmd_timeout
      timeout := a.net_timeout
      abort_on_prompts := true
      skip_bad_hosts := true
      parallel := true
      gateway := a.gateway
      use_ssh_config := true }
  if pyTruthy a.key_file then
    { env1 with no_keys := true, key_filename := a.key_file }
  else
    env1

/-- Constructing twice in one process: both constructors write the same
global environment. -/
def initTwice (p1 p2 : InitArgs) (env0 : Env) : Env :=
  headlessInit p2 (headlessInit p1 env0)

/-- A `HeadlessFabric` instance.  The Python class stores no instance
attributes (its `__init__` only writes the global `env`), so the
instance type has no fields. -/
structure HeadlessFabric where
  deriving Repr, DecidableEq

/-- The outcome of one underlying transport invocation (Fabric `run`,
`get` or `put`), at the interface boundary of the external library:
either a completed round trip carrying the remote return code and the
captured output, an ordinary Python exception with its message, or the
`SystemExit` Fabric raises instead of blocking for an interactive
prompt (its payload is the `str` of the exit object). -/
inductive TransportOutcome where
  | result (return_code : Int) (output : String)
  | raised (msg : String)
  | promptExit (msg : String)
  deriving Repr, DecidableEq

/-- The two file-transfer primitives the module imports from Fabric. -/
inductive TransferPrim where
  | get
  | put
  deriving Repr, DecidableEq

/-- The transport oracle: what the external Fabric library does for a
remote command on a given host, and for a transfer primitive applied to
a host value and two path arguments.  The host value of a transfer is
whatever the caller passed (the code never inspects it), so it is kept
as an opaque `String`-or-list value. -/
inductive HostVal where
  | one (h : String)
  | many (hs : List String)
  deriving Repr, DecidableEq

/-- String rendering of a host value, as Python would interpolate it
into a log message. -/
def hostValStr : HostVal → String
  | .one h => h
  | .many hs => toString hs

/-- The external transport, as an oracle from invocations to outcomes. -/
structure Transport where
  runCmd : String → String → TransportOutcome
  transfer : TransferPrim → HostVal → String → String → TransportOutcome

/-- `t` with the `get` and `put` primitives interchanged. -/
def Transport.swapTransfers (t : Transport) : Transport where
  runCmd := t.runCmd
  transfer := fun p h a b =>
    t.transfer (match p with | .get => .put | .put => .get) h a b

/-- A Python exception value raised to the caller: the code raises only
`RuntimeError` and `LookupError`. -/
inductive PyError where
  | runtimeError (msg : String)
  | lookupError (msg : String)
  deriving Repr, DecidableEq

/-- How one call returns to the caller: a normal return value, a raised
Python exception, or an uncaught `SystemExit` escaping to the process
(terminating it). -/
inductive PyResult (α : Type) where
  | ok (val : α)
  | error (e : PyError)
  | exited (code : String)
  deriving Repr, DecidableEq

/-- Message of `_run_fabric_command` for a non-zero return code:
`"Remote command '{}' failed with status code {}: {}"`. -/
def cmdFailInner (command : String) (rc : Int) (out : String) : String :=
  "Remote command '" ++ command ++ "' failed with status code " ++
    toString rc ++ ": " ++ out

/-- Message of `_run_fabric_command`'s `except Exception` handler:
`"Remote command {} failed because '{}'"`. -/
def cmdWrapMsg (command cause : String) : String :=
  "Remote command " ++ command ++ " failed because '" ++ cause ++ "'"

/-- Message of `_run_fabric_command`'s `except SystemExit` handler:
`"Remote command {} failed because a user prompt was needed: {}"`. -/
def cmdPromptMsg (command cause : String) : String :=
  "Remote command " ++ command ++ " failed because a user prompt was needed: "
    ++ cause

/-- Message of `_transfer_file` for a failed transfer round trip:
`"File transfer ({} - {}) failed with status code {}"`. -/
def xferFailInner (file1 file2 : String) (rc : Int) : String :=
  "File transfer (" ++ file1 ++ " - " ++ file2 ++
    ") failed with status code " ++ toString rc

/-- Message of `_transfer_file`'s `except Exception` handler:
`"File transfer ({} - {}) failed because: {}"`. -/
def xferWrapMsg (file1 file2 cause : String) : String :=
  "File transfer (" ++ file1 ++ " - " ++ file2 ++ ") failed because: " ++ cause

/-- Message of `_transfer_file`'s `except SystemExit` handler:
`"File transfer ({} - {}) failed because a user prompt was needed: {}"`. -/
def xferPromptMsg (file1 file2 cause : String) : String :=
  "File transfer (" ++ file1 ++ " - " ++ file2 ++
    ") failed because a user prompt was needed: " ++ cause

/-- `HeadlessFabric._run_fabric_command`, given the transport outcome of
`run(command)`.  A completed round trip with return code 0 returns the
captured output.  A non-zero return code logs a warning and raises
`RuntimeError` inside the `try`, which the function's own
`except Exception` handler then catches and re-wraps (logging a second
warning).  Any other exception from the transport is wrapped into a
`RuntimeError`.  A `SystemExit` (Fabric's replacement for an
interactive prompt) is not an `Exception` in Python, so it reaches the
`except SystemExit` handler and becomes a `LookupError`. -/
def run_fabric_command (command : String) (outcome : TransportOutcome) :
    PyResult String × List LogRecord :=
  match outcome with
  | .result rc out =>
    if rc == 0 then
      (.ok out, [])
    else
      (.error (.runtimeError (cmdWrapMsg command (cmdFailInner command rc out))),
       [⟨.warning, cmdFailInner command rc out⟩,
        ⟨.warning, cmdWrapMsg command (cmdFailInner command rc out)⟩])
  | .raised msg =>
    (.error (.runtimeError (cmdWrapMsg command msg)),
     [⟨.warning, cmdWrapMsg command msg⟩])
  | .promptExit msg =>
    (.error (.lookupError (cmdPromptMsg command msg)),
     [⟨.warning, cmdPromptMsg command msg⟩])

/-- `HeadlessFabric._transfer_file`, given the transport outcome of
`transfer_func(file1, file2)`.  Same guard structure as
`run_fabric_command`; the inner failure message carries the status code
but (unlike the command guard) not the output, and the wrap message
uses a colon instead of quotes. -/
def transfer_file (file1 file2 : String) (outcome : TransportOutcome) :
    PyResult (Int × String) × List LogRecord :=
  match outcome with
  | .result rc out =>
    if rc == 0 then
      (.ok (rc, out), [])
    else
      (.error (.runtimeError (xferWrapMsg file1 file2 (xferFailInner file1 file2 rc))),
       [⟨.warning, xferFailInner file1 file2 rc⟩,
        ⟨.warning, xferWrapMsg file1 file2 (xferFailInner file1 file2 rc)⟩])
  | .raised msg =>
    (.error (.runtimeError (xferWrapMsg file1 file2 msg)),
     [⟨.warning, xferWrapMsg file1 file2 msg⟩])
  | .promptExit msg =>
    (.error (.lookupError (xferPromptMsg file1 file2 msg)),
     [⟨.warning, xferPromptMsg file1 file2 msg⟩])

/-- `HeadlessFabric.execute(command, host_list)`.  Fabric's `execute`
fan-out is modelled at its interface boundary: it injects the per-call
host list into the global environment's host context and applies the
guarded task `_run_fabric_command` once per host, collecting a per-host
mapping.  The instance argument mirrors the Python `self`; the class
has no instance attributes, so the method reads none. -/
def HeadlessFabric.execute (_self : HeadlessFabric) (t : Transport)
    (command : String) (host_list : List String) (env : Env) :
    List (String × PyResult String) × List LogRecord × Env :=
  let results := host_list.map
    (fun h => (h, (run_fabric_command command (t.runCmd h command)).1))
  let warnLogs := (host_list.map
    (fun h => (run_fabric_command command (t.runCmd h command)).2)).flatten
  (results,
   ⟨.info, "Executing remote command '" ++ command ++ "' on hosts " ++
     toString host_list⟩ :: warnLogs,
   { env with hosts := host_list })

/-- `HeadlessFabric.get_file(host, remote_file, local_file)`: delegates
to `_transfer_file` with the `get` primitive and the argument order
(remote, local), through Fabric's single-host `execute` (modelled as
setting the host context and running the guarded task once). -/
def HeadlessFabric.get_file (_self : HeadlessFabric) (t : Transport)
    (host : HostVal) (remote_file local_file : String) (env : Env) :
    PyResult (Int × String) × List LogRecord × Env :=
  let r := transfer_file remote_file local_file
    (t.transfer .get host remote_file local_file)
  (r.1,
   ⟨.info, "Transferring file " ++ remote_file ++ " on " ++ hostValStr host ++
     " to local location " ++ local_file⟩ :: r.2,
   { env with host := some (hostValStr host) })

/-- `HeadlessFabric.put_file(host, local_file, remote_file)`: delegates
to `_transfer_file` with the `put` primitive and the argument order
(local, remote), through Fabric's single-host `execute`. -/
def HeadlessFabric.put_file (_self : HeadlessFabric) (t : Transport)
    (host : HostVal) (local_file remote_file : String) (env : Env) :
    PyResult (Int × String) × List LogRecord × Env :=
  let r := transfer_file local_file remote_file
    (t.transfer .put host local_file remote_file)
  (r.1,
   ⟨.info, "Transferring local file " ++ local_file ++ " to " ++ remote_file ++
     " on host " ++ hostValStr host⟩ :: r.2,
   { env with host := some (hostValStr host) })

/-- Whether `sub` occurs as a contiguous substring of the character
list `l`. -/
def charsContain (sub : List Char) : List Char → Bool
  | [] => sub.isEmpty
  | c :: rest => sub.isPrefixOf (c :: rest) || charsContain sub rest

/-- Whether `sub` occurs as a contiguous substring of `s`. -/
def strContains (s sub : String) : Bool :=
  charsContain sub.data s.data

/-- A transport whose every invocation attempts an interactive prompt
(Fabric raises `SystemExit` with empty payload). -/
def promptTransport : Transport where
  runCmd := fun _ _ => .promptExit ""
  transfer := fun _ _ _ _ => .promptExit ""

/-- A transport whose every invocation completes with status 0 and
output `"ok"`. -/
def okTransport : Transport where
  runCmd := fun _ _ => .result 0 "ok"
  transfer := fun _ _ _ _ => .result 0 "ok"

/-- A transport whose every invocation raises an ordinary exception
with message `"boom"`. -/
def raisedTransport : Transport where
  runCmd := fun _ _ => .raised "boom"
  transfer := fun _ _ _ _ => .raised "boom"

/-- A transport whose every invocation completes with status 2 and
output `"stdout"` (a reachable host whose command exits non-zero). -/
def failTransport : Transport where
  runCmd := fun _ _ => .result 2 "stdout"
  transfer := fun _ _ _ _ => .result 2 "stdout"

theorem isPrefixOf_extend (sub l t : List Char) (h : sub.isPrefixOf l = true) :
    sub.isPrefixOf (l ++ t) = true := by
  induction sub generalizing l with
  | nil => simp [List.isPrefixOf]
  | cons a as ih =>
    cases l with
    | nil => simp [List.isPrefixOf] at h
    | cons b bs =>
      simp only [List.cons_append, List.isPrefixOf, Bool.and_eq_true] at h ⊢
      exact ⟨h.1, ih bs h.2⟩

theorem isPrefixOf_self (l : List Char) : l.isPrefixOf l = true := by
  induction l with
  | nil => simp [List.isPrefixOf]
  | cons a as ih => simp [List.isPrefixOf, ih]

theorem charsContain_ext_right (sub l t : List Char)
    (h : charsContain sub l = true) : charsContain sub (l ++ t) = true := by
  induction l with
  | nil =>
    simp only [charsContain, List.isEmpty_iff] at h
    subst h
    cases t with
    | nil => simp [charsContain]
    | cons c cs => simp [charsContain, List.isPrefixOf]
  | cons c cs ih =>
    simp only [charsContain, Bool.or_eq_true] at h
    rcases h with h | h
    · simp only [List.cons_append, charsContain, Bool.or_eq_true]
      exact Or.inl (isPrefixOf_extend _ _ _ h)
    · simp only [List.cons_append, charsContain, Bool.or_eq_true]
      exact Or.inr (ih h)

theorem charsContain_ext_left (sub l t : List Char)
    (h : charsContain sub l = true) : charsContain sub (t ++ l) = true := by
  induction t with
  | nil => simpa using h
  | cons c cs ih =>
    simp only [List.cons_append, charsContain, Bool.or_eq_true]
    exact Or.inr ih

theorem charsContain_self (l : List Char) : charsContain l l = true := by
  cases l with
  | nil => simp [charsContain]
  | cons c cs => simp [charsContain, isPrefixOf_self]

theorem strContains_self (s : String) : strContains s s = true :=
  charsContain_self s.data

theorem strContains_app_left (a b sub : String)
    (h : strContains a sub = true) : strContains (a ++ b) sub = true := by
  simpa [strContains, String.data_append] using
    charsContain_ext_right sub.data a.data b.data h

theorem strContains_app_right (a b sub : String)
    (h : strContains b sub = true) : strContains (a ++ b) sub = true := by
  simpa [strContains, String.data_append] using
    charsContain_ext_left sub.data b.data a.data h

theorem headlessInit_fields (a : InitArgs) (env : Env) :
    (headlessInit a env).connection_attempts = a.conn_attempts ∧
    (headlessInit a env).command_timeout = some a.cmd_timeout ∧
    (headlessInit a env).timeout = a.net_timeout ∧
    (headlessInit a env).abort_on_prompts = true ∧
    (headlessInit a env).skip_bad_hosts = true ∧
    (headlessInit a env).parallel = true ∧
    (headlessInit a env).gateway = a.gateway ∧
    (headlessInit a env).use_ssh_config = true ∧
    (headlessInit a env).hosts = env.hosts ∧
    (headlessInit a env).host = env.host ∧
    (pyTruthy a.key_file = true →
      (headlessInit a env).no_keys = true ∧
      (headlessInit a env).key_filename = a.key_file) ∧
    (pyTruthy a.key_file = false →
      (headlessInit a env).no_keys = env.no_keys ∧
      (headlessInit a env).key_filename = env.key_filename) := by
  unfold headlessInit
  cases h : pyTruthy a.key_file <;> simp [h]

/-- Claim C4 (counterexample): `execute` called with an empty host list
does not raise an invalid-argument error (no such error kind exists in
the code): the call returns normally with an empty per-host mapping. -/
theorem empty_host_list_returns_empty_mapping :
    (HeadlessFabric.execute HeadlessFabric.mk promptTransport "ls" [] defaultEnv).1
      = [] := rfl

/-- Claim C4 (amended): `execute` performs no validation of the host
list.  Called with an empty host list it attempts no remote operation
(its result is the same for every transport) and silently returns an
empty per-host mapping instead of raising an invalid-argument error. -/
theorem execute_empty_hosts_no_validation (self : HeadlessFabric)
    (t₁ t₂ : Transport) (cmd : String) (env : Env) :
    (HeadlessFabric.execute self t₁ cmd [] env).1 = [] ∧
    HeadlessFabric.execute self t₁ cmd [] env
      = HeadlessFabric.execute self t₂ cmd [] env :=
  ⟨rfl, rfl⟩

/-- Claim C5 (counterexample): `get_file`/`put_file` called with a list
of more than one host do not raise an invalid-argument error before
attempting network I/O: the list is passed through to the transport,
the transfer is attempted (the outcome depends on the transport), and
with a succeeding transport the call even returns success. -/
theorem multi_host_transfer_not_rejected :
    (HeadlessFabric.get_file HeadlessFabric.mk okTransport
      (.many ["h1", "h2"]) "r" "l" defaultEnv).1 = .ok (0, "ok") ∧
    (HeadlessFabric.put_file HeadlessFabric.mk okTransport
      (.many ["h1", "h2"]) "l" "r" defaultEnv).1 = .ok (0, "ok") ∧
    (HeadlessFabric.get_file HeadlessFabric.mk promptTransport
      (.many ["h1", "h2"]) "r" "l" defaultEnv).1 =
      .error (.lookupError (xferPromptMsg "r" "l" "")) :=
  ⟨rfl, rfl, rfl⟩

/-- Claim C5 (amended): `get_file` and `put_file` perform no validation
of their host argument: a list of several hosts is passed through
unchanged as the (opaque) host value of a single guarded transfer
attempt, and no invalid-argument error is raised before network I/O. -/
theorem transfer_host_passthrough (self : HeadlessFabric) (t : Transport)
    (hs : List String) (r l : String) (env : Env) :
    (HeadlessFabric.get_file self t (.many hs) r l env).1 =
      (transfer_file r l (t.transfer .get (.many hs) r l)).1 ∧
    (HeadlessFabric.put_file self t (.many hs) l r env).1 =
      (transfer_file l r (t.transfer .put (.many hs) l r)).1 :=
  ⟨rfl, rfl⟩

/-- Claim C6: after any call to `execute`, `get_file` or `put_file` the
session policy fields of the global environment are unchanged: the
operations write only the per-call host context, never the policy. -/
theorem operations_preserve_policy (self : HeadlessFabric) (t : Transport)
    (cmd : String) (hl : List String) (host : HostVal) (r l : String)
    (env : Env) :
    policyOf (HeadlessFabric.execute self t cmd hl env).2.2 = policyOf env ∧
    policyOf (HeadlessFabric.get_file self t host r l env).2.2 = policyOf env ∧
    policyOf (HeadlessFabric.put_file self t host l r env).2.2 = policyOf env :=
  ⟨rfl, rfl, rfl⟩

/-- Claim C10: `put_file` satisfies the same contract as `get_file`
with source and destination reversed: both delegate to the identical
guard `transfer_file`, differing only in the transfer primitive used
and the order of the two path arguments, so their results and error
classifications coincide under interchange of the two primitives. -/
theorem put_get_symmetry (self : HeadlessFabric) (t : Transport)
    (host : HostVal) (x y : String) (env : Env) :
    (HeadlessFabric.put_file self t host x y env).1 =
      (HeadlessFabric.get_file self t.swapTransfers host x y env).1 ∧
    (HeadlessFabric.get_file self t host x y env).1 =
      (transfer_file x y (t.transfer .get host x y)).1 ∧
    (HeadlessFabric.put_file self t host x y env).1 =
      (transfer_file x y (t.transfer .put host x y)).1 :=
  ⟨rfl, rfl, rfl⟩

/-- Claim C7 (counterexample): `__init__` does not write every policy
setting into the global environment: the key-file pair is written only
when a key file is given.  Constructing first with a key file and then
without one leaves the first instance's key restriction in force, so
subsequent operations do not run under the most recently constructed
policy (which would permit default key discovery). -/
theorem stale_key_policy_after_reinit :
    policyOf (initTwice (InitArgs.mk 3 120 120 (some "k") none)
        defaultInitArgs defaultEnv)
      ≠ policyOf (headlessInit defaultInitArgs defaultEnv) ∧
    (initTwice (InitArgs.mk 3 120 120 (some "k") none)
        defaultInitArgs defaultEnv).key_filename = some "k" ∧
    (initTwice (InitArgs.mk 3 120 120 (some "k") none)
        defaultInitArgs defaultEnv).no_keys = true ∧
    (headlessInit defaultInitArgs defaultEnv).no_keys = false := by
  refine ⟨?_, rfl, rfl, rfl⟩
  decide

/-- Claim C7 (amended): `HeadlessFabric` stores no per-instance state
(the instance type is a singleton and the operations do not depend on
the instance), and `__init__` writes its settings only into the
process-global environment, so after a second construction every
operation of every instance runs under the most recently written
fields: all policy fields of the second constructor are in force except
the key-file pair, which the second construction overwrites exactly
when it is given a truthy key file and otherwise leaves at the value
the first construction left behind. -/
theorem init_global_env_override :
    (∀ a b : HeadlessFabric, a = b) ∧
    (∀ (self₁ self₂ : HeadlessFabric) (t : Transport) (cmd : String)
        (hl : List String) (env : Env),
      HeadlessFabric.execute self₁ t cmd hl env
        = HeadlessFabric.execute self₂ t cmd hl env) ∧
    (∀ (p1 p2 : InitArgs) (env0 : Env),
      (initTwice p1 p2 env0).connection_attempts = p2.conn_attempts ∧
      (initTwice p1 p2 env0).command_timeout = some p2.cmd_timeout ∧
      (initTwice p1 p2 env0).timeout = p2.net_timeout ∧
      (initTwice p1 p2 env0).gateway = p2.gateway ∧
      (initTwice p1 p2 env0).abort_on_prompts = true ∧
      (pyTruthy p2.key_file = true →
        (initTwice p1 p2 env0).no_keys = true ∧
        (initTwice p1 p2 env0).key_filename = p2.key_file) ∧
      (pyTruthy p2.key_file = false →
        (initTwice p1 p2 env0).no_keys = (headlessInit p1 env0).no_keys ∧
        (initTwice p1 p2 env0).key_filename
          = (headlessInit p1 env0).key_filename)) := by
  refine ⟨fun a b => rfl, fun _ _ _ _ _ _ => rfl, fun p1 p2 env0 => ?_⟩
  obtain ⟨h1, h2, h3, -, -, -, h7, -, -, -, h11, h12⟩ :=
    headlessInit_fields p2 (headlessInit p1 env0)
  exact ⟨h1, h2, h3, h7, (headlessInit_fields p2 (headlessInit p1 env0)).2.2.2.1,
    h11, h12⟩

/-- Witness for the amended C7 at concrete inputs: the second, keyless
construction leaves the first construction's key file in force while
its own numeric policy wins. -/
theorem init_global_env_override_witness :
    (initTwice (InitArgs.mk 5 6 7 (some "k") none)
        defaultInitArgs defaultEnv).key_filename = some "k" ∧
    (initTwice (InitArgs.mk 5 6 7 (some "k") none)
        defaultInitArgs defaultEnv).connection_attempts = 3 := by
  obtain ⟨-, -, h⟩ := init_global_env_override
  obtain ⟨hconn, -, -, -, -, -, h12⟩ :=
    h (InitArgs.mk 5 6 7 (some "k") none) defaultInitArgs defaultEnv
  exact ⟨(h12 rfl).2, hconn⟩

/-- Claim C8: construction with omitted arguments uses the defaults
`conn_attempts=3, cmd_timeout=120, net_timeout=120`, no key file and no
gateway, and its only effect is transport configuration: prompts are
disabled (`abort_on_prompts`), a bad host does not abort the batch
(`skip_bad_hosts`), operations run in parallel, the gateway is set to
the given value, and exactly when a truthy key file is given, default
key discovery is disabled (`no_keys`) and only that key is used
(`key_filename`); the host context is untouched, and the construction
consults no transport (it is a pure environment update that takes no
transport argument), so no network call is made. -/
theorem init_defaults_and_config :
    defaultInitArgs = InitArgs.mk 3 120 120 none none ∧
    (∀ (a : InitArgs) (env : Env),
      (headlessInit a env).connection_attempts = a.conn_attempts ∧
      (headlessInit a env).command_timeout = some a.cmd_timeout ∧
      (headlessInit a env).timeout = a.net_timeout ∧
      (headlessInit a env).abort_on_prompts = true ∧
      (headlessInit a env).skip_bad_hosts = true ∧
      (headlessInit a env).parallel = true ∧
      (headlessInit a env).gateway = a.gateway ∧
      (headlessInit a env).use_ssh_config = true ∧
      (headlessInit a env).hosts = env.hosts ∧
      (headlessInit a env).host = env.host ∧
      (pyTruthy a.key_file = true →
        (headlessInit a env).no_keys = true ∧
        (headlessInit a env).key_filename = a.key_file) ∧
      (pyTruthy a.key_file = false →
        (headlessInit a env).no_keys = env.no_keys ∧
        (headlessInit a env).key_filename = env.key_filename)) :=
  ⟨rfl, headlessInit_fields⟩

/-- Witness for C8 at concrete inputs: the default construction on the
pristine Fabric environment disables prompts and leaves default key
discovery permitted; giving a key file restricts authentication to it. -/
theorem init_defaults_and_config_witness :
    (headlessInit defaultInitArgs defaultEnv).abort_on_prompts = true ∧
    (headlessInit defaultInitArgs defaultEnv).no_keys = false ∧
    (headlessInit (InitArgs.mk 3 120 120 (some "kf") none)
        defaultEnv).no_keys = true ∧
    (headlessInit (InitArgs.mk 3 120 120 (some "kf") none)
        defaultEnv).key_filename = some "kf" := by
  obtain ⟨-, h⟩ := init_defaults_and_config
  obtain ⟨-, -, -, h4, -, -, -, -, -, -, -, h12⟩ := h defaultInitArgs defaultEnv
  obtain ⟨-, -, -, -, -, -, -, -, -, -, h11, -⟩ :=
    h (InitArgs.mk 3 120 120 (some "kf") none) defaultEnv
  refine ⟨h4, (h12 rfl).1, (h11 (by decide)).1, (h11 (by decide)).2⟩

/-- Claim C1: whenever the transport attempts to fall back to an
interactive prompt (it raises `SystemExit` because prompts are disabled
by the policy `abort_on_prompts`, set at construction), `execute`,
`get_file` and `put_file` surface a `LookupError` (the prompt-required
kind), which is distinguishable from the `RuntimeError` used for
connection and transfer failures; the guards never let the condition
escape as a process exit, and the fail-fast configuration means the
call does not block for input. -/
theorem prompt_exit_surfaces_lookup_error (self : HeadlessFabric)
    (t : Transport) (env : Env) :
    (∀ (cmd : String) (hosts : List String) (h m : String),
      h ∈ hosts → t.runCmd h cmd = .promptExit m →
      (h, PyResult.error (PyError.lookupError (cmdPromptMsg cmd m))) ∈
        (HeadlessFabric.execute self t cmd hosts env).1) ∧
    (∀ (host : HostVal) (r l m : String),
      t.transfer .get host r l = .promptExit m →
      (HeadlessFabric.get_file self t host r l env).1 =
        .error (.lookupError (xferPromptMsg r l m))) ∧
    (∀ (host : HostVal) (l r m : String),
      t.transfer .put host l r = .promptExit m →
      (HeadlessFabric.put_file self t host l r env).1 =
        .error (.lookupError (xferPromptMsg l r m))) ∧
    (∀ s s₂ : String, PyError.lookupError s ≠ PyError.runtimeError s₂) ∧
    (∀ (a : InitArgs) (env0 : Env),
      (headlessInit a env0).abort_on_prompts = true) ∧
    (∀ (cmd : String) (o : TransportOutcome) (s : String),
      (run_fabric_command cmd o).1 ≠ .exited s) ∧
    (∀ (f1 f2 : String) (o : TransportOutcome) (s : String),
      (transfer_file f1 f2 o).1 ≠ .exited s) := by
  refine ⟨?_, ?_, ?_, ?_, ?_, ?_, ?_⟩
  · intro cmd hosts h m hmem hout
    have hm := List.mem_map_of_mem
      (fun x => (x, (run_fabric_command cmd (t.runCmd x cmd)).1)) hmem
    have hm₂ : (h, (run_fabric_command cmd (t.runCmd h cmd)).1) ∈
        hosts.map (fun x => (x, (run_fabric_command cmd (t.runCmd x cmd)).1)) :=
      hm
    rw [hout] at hm₂
    simpa [HeadlessFabric.execute, run_fabric_command] using hm₂
  · intro host r l m hout
    simp [HeadlessFabric.get_file, hout, transfer_file]
  · intro host l r m hout
    simp [HeadlessFabric.put_file, hout, transfer_file]
  · intro s s₂ hEq
    exact PyError.noConfusion hEq
  · intro a env0
    exact (headlessInit_fields a env0).2.2.2.1
  · intro cmd o s
    cases o with
    | result rc out =>
      cases h : rc == 0 <;> simp [run_fabric_command, h]
    | raised m => simp [run_fabric_command]
    | promptExit m => simp [run_fabric_command]
  · intro f1 f2 o s
    cases o with
    | result rc out =>
      cases h : rc == 0 <;> simp [transfer_file, h]
    | raised m => simp [transfer_file]
    | promptExit m => simp [transfer_file]

/-- Witness for C1 at concrete inputs: a transport that always raises
`SystemExit` makes `execute` report a per-host `LookupError` and
`get_file` raise one. -/
theorem prompt_exit_surfaces_lookup_error_witness :
    ("h1", PyResult.error (PyError.lookupError (cmdPromptMsg "ls" ""))) ∈
      (HeadlessFabric.execute HeadlessFabric.mk promptTransport
        "ls" ["h1"] defaultEnv).1 ∧
    (HeadlessFabric.get_file HeadlessFabric.mk promptTransport
        (.one "h1") "r" "l" defaultEnv).1 =
      .error (.lookupError (xferPromptMsg "r" "l" "")) := by
  have h := prompt_exit_surfaces_lookup_error HeadlessFabric.mk
    promptTransport defaultEnv
  exact ⟨h.1 "ls" ["h1"] "h1" "" (by simp) rfl, h.2.1 (.one "h1") "r" "l" "" rfl⟩

/-- Claim C2 (counterexample): the three underlying failure shapes are
not normalized to three mutually distinct error kinds: a non-zero exit
status and a transport-level exception both become a `RuntimeError`,
and at these concrete inputs they produce the very same error value. -/
theorem failure_kinds_not_three_distinct :
    (run_fabric_command "ls" (.result 2 "x")).1 =
      (run_fabric_command "ls" (.raised (cmdFailInner "ls" 2 "x"))).1 ∧
    (run_fabric_command "ls" (.result 2 "x")).1 =
      .error (.runtimeError (cmdWrapMsg "ls" (cmdFailInner "ls" 2 "x"))) :=
  ⟨rfl, rfl⟩

/-- Claim C2 (amended): every transport call of the three operations is
wrapped so that no failure propagates as an uncontrolled process exit,
but the guards normalize the three underlying failure shapes to only
two exception kinds: a non-zero exit status and any other transport
exception both become a `RuntimeError` (distinguishable at most by
message text), while an attempted interactive prompt becomes the
distinct `LookupError`. -/
theorem failure_normalization_two_kinds :
    (∀ (cmd : String) (rc : Int) (out : String), ¬ rc = 0 →
      (run_fabric_command cmd (.result rc out)).1 =
        .error (.runtimeError (cmdWrapMsg cmd (cmdFailInner cmd rc out)))) ∧
    (∀ cmd m, (run_fabric_command cmd (.raised m)).1 =
      .error (.runtimeError (cmdWrapMsg cmd m))) ∧
    (∀ cmd m, (run_fabric_command cmd (.promptExit m)).1 =
      .error (.lookupError (cmdPromptMsg cmd m))) ∧
    (∀ (f1 f2 : String) (rc : Int), ¬ rc = 0 → ∀ out,
      (transfer_file f1 f2 (.result rc out)).1 =
        .error (.runtimeError (xferWrapMsg f1 f2 (xferFailInner f1 f2 rc)))) ∧
    (∀ f1 f2 m, (transfer_file f1 f2 (.raised m)).1 =
      .error (.runtimeError (xferWrapMsg f1 f2 m))) ∧
    (∀ f1 f2 m, (transfer_file f1 f2 (.promptExit m)).1 =
      .error (.lookupError (xferPromptMsg f1 f2 m))) ∧
    (∀ s s₂ : String, PyError.runtimeError s ≠ PyError.lookupError s₂) ∧
    (∀ cmd (o : TransportOutcome) s,
      (run_fabric_command cmd o).1 ≠ .exited s) ∧
    (∀ f1 f2 (o : TransportOutcome) s,
      (transfer_file f1 f2 o).1 ≠ .exited s) := by
  refine ⟨?_, fun cmd m => rfl, fun cmd m => rfl, ?_, fun f1 f2 m => rfl,
    fun f1 f2 m => rfl, fun s s₂ hEq => PyError.noConfusion hEq, ?_, ?_⟩
  · intro cmd rc out hrc
    have h : (rc == 0) = false := by simpa using hrc
    simp [run_fabric_command, h]
  · intro f1 f2 rc hrc out
    have h : (rc == 0) = false := by simpa using hrc
    simp [transfer_file, h]
  · intro cmd o s
    cases o with
    | result rc out => cases h : rc == 0 <;> simp [run_fabric_command, h]
    | raised m => simp [run_fabric_command]
    | promptExit m => simp [run_fabric_command]
  · intro f1 f2 o s
    cases o with
    | result rc out => cases h : rc == 0 <;> simp [transfer_file, h]
    | raised m => simp [transfer_file]
    | promptExit m => simp [transfer_file]

/-- Witness for the amended C2 at concrete inputs. -/
theorem failure_normalization_two_kinds_witness :
    (run_fabric_command "ls" (.result 7 "out")).1 =
      .error (.runtimeError (cmdWrapMsg "ls" (cmdFailInner "ls" 7 "out"))) ∧
    (transfer_file "a" "b" (.result 7 "out")).1 =
      .error (.runtimeError (xferWrapMsg "a" "b" (xferFailInner "a" "b" 7))) :=
  ⟨failure_normalization_two_kinds.1 "ls" 7 "out" (by decide),
   failure_normalization_two_kinds.2.2.2.1 "a" "b" 7 (by decide) "out"⟩

/-- Claim C3: a reachable host whose command exits with a non-zero
status makes `execute` surface, for that host, a `RuntimeError`
(command-failure) built by the guard — never the raw transport
exception and never a process exit — whose message contains the exact
exit status and the captured output. -/
theorem nonzero_exit_surfaces_status_and_output (self : HeadlessFabric)
    (t : Transport) (env : Env) (cmd : String) (hosts : List String)
    (h : String) (rc : Int) (out : String)
    (hmem : h ∈ hosts) (hout : t.runCmd h cmd = .result rc out)
    (hrc : ¬ rc = 0) :
    (h, PyResult.error (.runtimeError (cmdWrapMsg cmd (cmdFailInner cmd rc out)))) ∈
      (HeadlessFabric.execute self t cmd hosts env).1 ∧
    strContains (cmdWrapMsg cmd (cmdFailInner cmd rc out)) (toString rc) = true ∧
    strContains (cmdWrapMsg cmd (cmdFailInner cmd rc out)) out = true ∧
    (∀ s, (run_fabric_command cmd (.result rc out)).1 ≠ .exited s) := by
  have hne : (rc == 0) = false := by simpa using hrc
  have hin_rc : strContains (cmdFailInner cmd rc out) (toString rc) = true := by
    unfold cmdFailInner
    exact strContains_app_left _ _ _ (strContains_app_left _ _ _
      (strContains_app_right _ _ _ (strContains_self _)))
  have hin_out : strContains (cmdFailInner cmd rc out) out = true := by
    unfold cmdFailInner
    exact strContains_app_right _ _ _ (strContains_self _)
  refine ⟨?_, ?_, ?_, ?_⟩
  · have hm := List.mem_map_of_mem
      (fun x => (x, (run_fabric_command cmd (t.runCmd x cmd)).1)) hmem
    have hm₂ : (h, (run_fabric_command cmd (t.runCmd h cmd)).1) ∈
        hosts.map (fun x => (x, (run_fabric_command cmd (t.runCmd x cmd)).1)) :=
      hm
    rw [hout] at hm₂
    simpa [HeadlessFabric.execute, run_fabric_command, hne] using hm₂
  · unfold cmdWrapMsg
    exact strContains_app_left _ _ _ (strContains_app_right _ _ _ hin_rc)
  · unfold cmdWrapMsg
    exact strContains_app_left _ _ _ (strContains_app_right _ _ _ hin_out)
  · intro s
    simp [run_fabric_command, hne]

/-- Witness for C3 at concrete inputs: a command exiting with status 2
and output `"stdout"` on host `"h1"`. -/
theorem nonzero_exit_surfaces_status_and_output_witness :
    ("h1", PyResult.error (.runtimeError
        (cmdWrapMsg "ls" (cmdFailInner "ls" 2 "stdout")))) ∈
      (HeadlessFabric.execute HeadlessFabric.mk failTransport
        "ls" ["h1"] defaultEnv).1 ∧
    strContains (cmdWrapMsg "ls" (cmdFailInner "ls" 2 "stdout"))
      (toString (2 : Int)) = true ∧
    strContains (cmdWrapMsg "ls" (cmdFailInner "ls" 2 "stdout"))
      "stdout" = true := by
  have h := nonzero_exit_surfaces_status_and_output HeadlessFabric.mk
    failTransport defaultEnv "ls" ["h1"] "h1" 2 "stdout" (by simp) rfl
    (by decide)
  exact ⟨h.1, h.2.1, h.2.2.1⟩

/-- Claim C9 (counterexample): the surfaced error and the warning log
do not carry the host involved.  For a transport exception `"boom"` on
host `"h9"`, the complete surfaced error and the complete warning
message are the fixed string `cmdWrapMsg "ls" "boom"`, and `"h9"` does
not occur in it. -/
theorem error_message_lacks_host :
    (HeadlessFabric.execute HeadlessFabric.mk raisedTransport
        "ls" ["h9"] defaultEnv).1 =
      [("h9", .error (.runtimeError (cmdWrapMsg "ls" "boom")))] ∧
    (HeadlessFabric.execute HeadlessFabric.mk raisedTransport
        "ls" ["h9"] defaultEnv).2.1 =
      [⟨.info, "Executing remote command 'ls' on hosts " ++
          toString ["h9"]⟩,
       ⟨.warning, cmdWrapMsg "ls" "boom"⟩] ∧
    strContains (cmdWrapMsg "ls" "boom") "h9" = false := by
  refine ⟨rfl, rfl, ?_⟩
  decide

/-- Claim C9 (amended): every error surfaced by the guards — in each of
the three failure shapes of the command guard and of the transfer guard
(non-zero exit status, transport exception, attempted prompt) — carries
the kind (the exception type), the command or file pair and a
human-readable cause string from the underlying failure, and the very
same message is logged at warning level as a side effect before the
error is raised (the non-zero-exit shape logs the inner message first
and then the surfaced one); the host involved, however, appears only in
the pre-operation info log, not in the error or the warning. -/
theorem error_carries_kind_args_cause_logged (cmd m f1 f2 : String)
    (rc : Int) :
    (¬ rc = 0 →
      (run_fabric_command cmd (.result rc m)).1 =
        .error (.runtimeError (cmdWrapMsg cmd (cmdFailInner cmd rc m))) ∧
      (run_fabric_command cmd (.result rc m)).2 =
        [⟨.warning, cmdFailInner cmd rc m⟩,
         ⟨.warning, cmdWrapMsg cmd (cmdFailInner cmd rc m)⟩]) ∧
    (run_fabric_command cmd (.raised m)).1 =
      .error (.runtimeError (cmdWrapMsg cmd m)) ∧
    (run_fabric_command cmd (.raised m)).2 = [⟨.warning, cmdWrapMsg cmd m⟩] ∧
    (run_fabric_command cmd (.promptExit m)).1 =
      .error (.lookupError (cmdPromptMsg cmd m)) ∧
    (run_fabric_command cmd (.promptExit m)).2 =
      [⟨.warning, cmdPromptMsg cmd m⟩] ∧
    strContains (cmdWrapMsg cmd m) cmd = true ∧
    strContains (cmdWrapMsg cmd m) m = true ∧
    strContains (cmdPromptMsg cmd m) cmd = true ∧
    strContains (cmdPromptMsg cmd m) m = true ∧
    (¬ rc = 0 →
      (transfer_file f1 f2 (.result rc m)).1 =
        .error (.runtimeError (xferWrapMsg f1 f2 (xferFailInner f1 f2 rc))) ∧
      (transfer_file f1 f2 (.result rc m)).2 =
        [⟨.warning, xferFailInner f1 f2 rc⟩,
         ⟨.warning, xferWrapMsg f1 f2 (xferFailInner f1 f2 rc)⟩]) ∧
    (transfer_file f1 f2 (.raised m)).1 =
      .error (.runtimeError (xferWrapMsg f1 f2 m)) ∧
    (transfer_file f1 f2 (.raised m)).2 =
      [⟨.warning, xferWrapMsg f1 f2 m⟩] ∧
    (transfer_file f1 f2 (.promptExit m)).1 =
      .error (.lookupError (xferPromptMsg f1 f2 m)) ∧
    (transfer_file f1 f2 (.promptExit m)).2 =
      [⟨.warning, xferPromptMsg f1 f2 m⟩] ∧
    strContains (xferWrapMsg f1 f2 m) f1 = true ∧
    strContains (xferWrapMsg f1 f2 m) f2 = true ∧
    strContains (xferWrapMsg f1 f2 m) m = true ∧
    strContains (xferPromptMsg f1 f2 m) f1 = true ∧
    strContains (xferPromptMsg f1 f2 m) f2 = true ∧
    strContains (xferPromptMsg f1 f2 m) m = true := by
  refine ⟨?_, rfl, rfl, rfl, rfl, ?_, ?_, ?_, ?_, ?_, rfl, rfl, rfl, rfl,
    ?_, ?_, ?_, ?_, ?_, ?_⟩
  · intro hrc
    have hne : (rc == 0) = false := by simpa using hrc
    exact ⟨by simp [run_fabric_command, hne], by simp [run_fabric_command, hne]⟩
  · unfold cmdWrapMsg
    exact strContains_app_left _ _ _ (strContains_app_left _ _ _
      (strContains_app_left _ _ _ (strContains_app_right _ _ _
        (strContains_self _))))
  · unfold cmdWrapMsg
    exact strContains_app_left _ _ _ (strContains_app_right _ _ _
      (strContains_self _))
  · unfold cmdPromptMsg
    exact strContains_app_left _ _ _ (strContains_app_left _ _ _
      (strContains_app_right _ _ _ (strContains_self _)))
  · unfold cmdPromptMsg
    exact strContains_app_right _ _ _ (strContains_self _)
  · intro hrc
    have hne : (rc == 0) = false := by simpa using hrc
    exact ⟨by simp [transfer_file, hne], by simp [transfer_file, hne]⟩
  · unfold xferWrapMsg
    exact strContains_app_left _ _ _ (strContains_app_left _ _ _
      (strContains_app_left _ _ _ (strContains_app_left _ _ _
        (strContains_app_right _ _ _ (strContains_self _)))))
  · unfold xferWrapMsg
    exact strContains_app_left _ _ _ (strContains_app_left _ _ _
      (strContains_app_right _ _ _ (strContains_self _)))
  · unfold xferWrapMsg
    exact strContains_app_right _ _ _ (strContains_self _)
  · unfold xferPromptMsg
    exact strContains_app_left _ _ _ (strContains_app_left _ _ _
      (strContains_app_left _ _ _ (strContains_app_left _ _ _
        (strContains_app_right _ _ _ (strContains_self _)))))
  · unfold xferPromptMsg
    exact strContains_app_left _ _ _ (strContains_app_left _ _ _
      (strContains_app_right _ _ _ (strContains_self _)))
  · unfold xferPromptMsg
    exact strContains_app_right _ _ _ (strContains_self _)

/-- Witness for the amended C9 at concrete inputs: the non-zero-exit
shape of both guards logs the inner warning and then the surfaced
message at warning level. -/
theorem error_carries_kind_args_cause_logged_witness :
    (run_fabric_command "ls" (.result 2 "x")).2 =
      [⟨.warning, cmdFailInner "ls" 2 "x"⟩,
       ⟨.warning, cmdWrapMsg "ls" (cmdFailInner "ls" 2 "x")⟩] ∧
    (transfer_file "a" "b" (.result 2 "x")).2 =
      [⟨.warning, xferFailInner "a" "b" 2⟩,
       ⟨.warning, xferWrapMsg "a" "b" (xferFailInner "a" "b" 2)⟩] := by
  obtain ⟨h1, -, -, -, -, -, -, -, -, h10, -⟩ :=
    error_carries_kind_args_cause_logged "ls" "x" "a" "b" 2
  exact ⟨(h1 (by decide)).2, (h10 (by decide)).2⟩
